import Mathlib

/-!
Shallow embedding of the CBS_Backend booking/payment reconciliation code.

The repository persists two kinds of records (src/src/db/schema.ts):
a `payments` row per gateway order and a `bookings` row per reservation.
Two generations of the bookings schema coexist in the repository:
the one used by src/src/routes/payment.ts, src/src/routes/bookings.ts and
the unnamed bookings router (fields status/paymentStatus/paymentId, lower-case
status literals) and the one used by src/src/controllers/booking.ts (field
orderId, capitalised status literals, no paymentStatus column).  Both are
embedded, as `Booking` and `BookingC` respectively.

Timestamps: the code stores `new Date().toISOString()` strings or integer
timestamps; both are modelled by the instant itself, a `Nat` supplied to each
handler as the parameter `now`.  Database errors and HTTP exceptions are
modelled by returning the post-handler state together with
`Except Nat α` where the error carries the HTTP status code thrown; the state
is returned in both cases because D1 inserts performed before a later throw
are not rolled back.

The gateway (src/src/services/cashfree.ts) is an external collaborator: the
result of `cashfree.verifyOrder` / the webhook body / the signature
verification outcome are inputs to the embedded handlers, exactly as the
handlers receive them.
-/

deriving instance DecidableEq for Except

namespace CBS

/-- A row of the `payments` table (src/src/db/schema.ts lines 21-32). -/
structure Payment where
  id : String
  orderId : String
  paymentSessionId : String
  amount : Int
  currency : String
  status : String
  paymentMethod : Option String
  paymentTime : Option Nat
  createdAt : Nat
  updatedAt : Nat
deriving DecidableEq, Repr

/-- A row of the `bookings` table, first schema generation
(src/src/db/schema.ts lines 35-49): status/paymentStatus/paymentId fields. -/
structure Booking where
  id : String
  userId : String
  date : Nat
  status : String
  paymentStatus : String
  paymentId : Option String
  meetLink : Option String
  createdAt : Nat
  updatedAt : Nat
deriving DecidableEq, Repr

/-- A row of the `bookings` table, second schema generation
(src/src/db/schema.ts lines 87-101), the one the booking controller
(src/src/controllers/booking.ts) operates on: an `orderId` column referencing
`payments.orderId`, a single `status` column, no paymentStatus column. -/
structure BookingC where
  id : String
  userId : String
  orderId : String
  consultationDate : String
  name : String
  email : String
  phoneNumber : String
  amount : Int
  isGuest : Bool
  status : String
  createdAt : Nat
  updatedAt : Nat
deriving DecidableEq, Repr

/-- The `PaymentResponse` returned by `cashfree.verifyOrder`
(src/src/services/cashfree.ts lines 16-22). -/
structure PaymentResponse where
  order_id : String
  payment_session_id : String
  order_status : String
  payment_method : Option String
  payment_time : Option Nat
deriving DecidableEq, Repr

/-- Database state seen by src/src/routes/payment.ts: the payments table and
the first-generation bookings table. -/
structure VerifyState where
  payments : List Payment
  bookings : List Booking
deriving DecidableEq, Repr

/-- `db.select().from(payments).where(eq(payments.orderId, orderId))`,
destructured to its first row. -/
def findPayment (ps : List Payment) (orderId : String) : Option Payment :=
  ps.find? (fun p => p.orderId == orderId)

/-- The effect of the payments UPDATE of `verifyPayment`
(src/src/routes/payment.ts lines 149-157) on one row: set status,
paymentMethod, paymentTime from the gateway response and updatedAt to now
when the row's orderId matches the WHERE clause. -/
def verifyRow (orderId : String) (d : PaymentResponse) (now : Nat)
    (p : Payment) : Payment :=
  if p.orderId == orderId then
    { p with status := d.order_status, paymentMethod := d.payment_method,
             paymentTime := d.payment_time, updatedAt := now }
  else p

/-- The payments UPDATE of `verifyPayment`
(src/src/routes/payment.ts lines 149-157), applied to the whole table. -/
def updatePaymentsVerify (ps : List Payment) (orderId : String)
    (d : PaymentResponse) (now : Nat) : List Payment :=
  ps.map (verifyRow orderId d now)

/-- The effect of the bookings UPDATE of `verifyPayment`
(src/src/routes/payment.ts lines 161-167) on one row: set status
'confirmed', paymentStatus 'completed', updatedAt now where
bookings.paymentId = orderId. -/
def confirmRow (orderId : String) (now : Nat) (b : Booking) : Booking :=
  if b.paymentId == some orderId then
    { b with status := "confirmed", paymentStatus := "completed",
             updatedAt := now }
  else b

/-- The bookings UPDATE of `verifyPayment`
(src/src/routes/payment.ts lines 161-167), applied to the whole table. -/
def confirmBookings (bs : List Booking) (orderId : String) (now : Nat) :
    List Booking :=
  bs.map (confirmRow orderId now)

/-- The success payload of `verifyPayment`
(src/src/routes/payment.ts lines 170-180). -/
structure VerifyOk where
  status : String
  order_id : String
  method : Option String
  time : Option Nat
  amount : Int
  currency : String
deriving DecidableEq, Repr

/-- `verifyPayment(c, orderId)` (src/src/routes/payment.ts lines 132-181).
`paymentData` is the gateway's `verifyOrder` response.  On a missing payment
record it throws 404; otherwise it unconditionally overwrites the payment row
with the reported status and, exactly when the reported status is 'PAID',
confirms the matching bookings. -/
def verifyPayment (st : VerifyState) (orderId : String)
    (paymentData : PaymentResponse) (now : Nat) :
    VerifyState × Except Nat VerifyOk :=
  match findPayment st.payments orderId with
  | none => (st, .error 404)
  | some existingPayment =>
    let ps := updatePaymentsVerify st.payments orderId paymentData now
    let bs := if paymentData.order_status == "PAID" then
        confirmBookings st.bookings orderId now
      else st.bookings
    (⟨ps, bs⟩,
     .ok { status := paymentData.order_status,
           order_id := paymentData.order_id,
           method := paymentData.payment_method,
           time := paymentData.payment_time,
           amount := existingPayment.amount,
           currency := existingPayment.currency })

/-- Database state seen by src/src/controllers/booking.ts: the payments table
and the second-generation bookings table. -/
structure CState where
  payments : List Payment
  bookings : List BookingC
deriving DecidableEq, Repr

/-- The `statusMap` lookup of GET /payment-status/:orderId
(src/src/controllers/booking.ts lines 231-240): `statusMap[order_status] ||
'UNKNOWN'`. -/
def statusMap (s : String) : String :=
  if s == "PAID" then "SUCCESS"
  else if s == "FAILED" then "FAILED"
  else if s == "CANCELLED" then "CANCELLED"
  else if s == "PENDING" then "PENDING"
  else if s == "USER_DROPPED" then "CANCELLED"
  else if s == "EXPIRED" then "EXPIRED"
  else "UNKNOWN"

/-- The effect on one row of the bookings UPDATE shared by the booking
controller's PAID branches (src/src/controllers/booking.ts lines 259-264 and
450-455): set status 'Confirmed' and updatedAt now where
bookings.orderId = orderId.  It writes no other column (the
second-generation schema has no paymentStatus column). -/
def confirmRowC (orderId : String) (now : Nat) (b : BookingC) : BookingC :=
  if b.orderId == orderId then
    { b with status := "Confirmed", updatedAt := now }
  else b

/-- The booking controller's PAID-branch bookings UPDATE applied to the whole
table. -/
def confirmBookingsC (bs : List BookingC) (orderId : String) (now : Nat) :
    List BookingC :=
  bs.map (confirmRowC orderId now)

/-- The success payload of GET /payment-status/:orderId
(src/src/controllers/booking.ts lines 272-283): the MAPPED status is
returned, next to payment details. -/
structure StatusOk where
  order_id : String
  status : String
  method : Option String
  time : Option Nat
  amount : Int
  currency : String
deriving DecidableEq, Repr

/-- GET /payment-status/:orderId (src/src/controllers/booking.ts
lines 200-294).  `paymentData` is the gateway's `verifyOrder` response.
404 when no payment row exists; otherwise the payment row is
unconditionally overwritten with the RAW reported status (the mapped status
only shapes the response), and the matching booking is set 'Confirmed'
exactly when the raw status is 'PAID'. -/
def getPaymentStatus (st : CState) (orderId : String)
    (paymentData : PaymentResponse) (now : Nat) :
    CState × Except Nat StatusOk :=
  match findPayment st.payments orderId with
  | none => (st, .error 404)
  | some existingPayment =>
    let mappedStatus := statusMap paymentData.order_status
    let ps := updatePaymentsVerify st.payments orderId paymentData now
    let bs := if paymentData.order_status == "PAID" then
        confirmBookingsC st.bookings orderId now
      else st.bookings
    (⟨ps, bs⟩,
     .ok { order_id := orderId,
           status := mappedStatus,
           method := paymentData.payment_method,
           time := paymentData.payment_time,
           amount := existingPayment.amount,
           currency := existingPayment.currency })

/-- The order portion of a webhook body: `body.data.order.order_id` together
with `body.data.order.order_status`, present only when the body nests a
data.order.order_id; and `body.data.payment?.payment_method`. -/
structure WebhookBody where
  order : Option (String × String)
  payment_method : Option String
deriving DecidableEq, Repr

/-- The webhook's acknowledgement: either the bare `{ success: true }` of the
fall-through (`ack none`) or the detailed
`{ success, message, order_id, status }` (`ack (some (orderId, status))`). -/
structure WebhookOk where
  ack : Option (String × String)
deriving DecidableEq, Repr

/-- POST /webhook (src/src/controllers/booking.ts lines 404-475).
`signature` is the `x-webhook-signature` header; `sigValid` is the result of
`cashfree.verifyWebhookSignature(body, signature)`.  The signature is checked
ONLY when the header is present; an absent header skips verification.  When
the body carries data.order.order_id, the payment row is unconditionally
overwritten (status := raw reported status, paymentMethod from the body with
the existing row's value as fallback, paymentTime and updatedAt := now) and
the matching booking is set 'Confirmed' exactly when the reported status is
'PAID'.  A body without data.order.order_id falls through to
`{ success: true }` with no write. -/
def postWebhook (st : CState) (signature : Option String) (sigValid : Bool)
    (body : WebhookBody) (now : Nat) : CState × Except Nat WebhookOk :=
  if signature.isSome && !sigValid then
    (st, .error 401)
  else
    match body.order with
    | none => (st, .ok { ack := none })
    | some (orderId, orderStatus) =>
      match findPayment st.payments orderId with
      | none => (st, .error 404)
      | some existingPayment =>
        let ps := st.payments.map (fun p =>
          if p.orderId == orderId then
            { p with status := orderStatus,
                     paymentMethod :=
                       match body.payment_method with
                       | some m => some m
                       | none => existingPayment.paymentMethod,
                     paymentTime := some now,
                     updatedAt := now }
          else p)
        let bs := if orderStatus == "PAID" then
            confirmBookingsC st.bookings orderId now
          else st.bookings
        (⟨ps, bs⟩, .ok { ack := some (orderId, orderStatus) })

/-- The success payload of the unnamed bookings router's POST /
(src/unnamed/part_004 lines 108-117): the inserted booking and the payment
session details. -/
structure CreateOk where
  booking : Booking
  orderId : String
  amount : Int
  currency : String
  paymentSessionId : String
deriving DecidableEq, Repr

/-- POST / of the unnamed bookings router (src/unnamed/part_004 lines
26-125), the booking-creation flow.  `bookingId`, `orderId`, `payId` stand
for the nanoid values generated on lines 48-49 and 65; `gateway` is the
outcome of `cashfree.createOrder` (error = the call threw).  The duplicate
check matches ANY existing booking of the same user at the same date,
regardless of its status, and throws 400.  Both inserts happen BEFORE the
gateway call; when the gateway call throws, the handler rethrows
HTTPException 500 and deletes nothing, so both rows persist. -/
def createBooking (st : VerifyState) (uid : String) (date : Nat)
    (bookingId orderId payId : String) (gateway : Except Nat String)
    (now : Nat) : VerifyState × Except Nat CreateOk :=
  match st.bookings.find? (fun b => b.userId == uid && b.date == date) with
  | some _ => (st, .error 400)
  | none =>
    let booking : Booking :=
      { id := bookingId, userId := uid, date := date,
        status := "pending", paymentStatus := "pending",
        paymentId := some orderId, meetLink := none,
        createdAt := now, updatedAt := now }
    let payment : Payment :=
      { id := payId, orderId := orderId, paymentSessionId := "",
        amount := 500, currency := "INR", status := "PENDING",
        paymentMethod := none, paymentTime := none,
        createdAt := now, updatedAt := now }
    let st2 : VerifyState :=
      ⟨st.payments ++ [payment], st.bookings ++ [booking]⟩
    match gateway with
    | .error _ => (st2, .error 500)
    | .ok sessionId =>
      let ps := st2.payments.map (fun p =>
        if p.orderId == orderId then
          { p with paymentSessionId := sessionId, updatedAt := now }
        else p)
      (⟨ps, st2.bookings⟩,
       .ok { booking := booking, orderId := orderId, amount := 500,
             currency := "INR", paymentSessionId := sessionId })

/-- Folding a sequence of client-verify status events over the database
state: each event carries the gateway response observed and the instant of
the call. -/
def applyVerifyEvents (orderId : String) :
    VerifyState → List (PaymentResponse × Nat) → VerifyState
  | st, [] => st
  | st, e :: rest =>
    applyVerifyEvents orderId (verifyPayment st orderId e.1 e.2).1 rest

/-- All persisted fields of a payment row except `updatedAt`, used to state
which fields a replay leaves unchanged. -/
def paymentCore (p : Payment) :
    String × String × String × Int × String × String × Option String ×
    Option Nat × Nat :=
  (p.id, p.orderId, p.paymentSessionId, p.amount, p.currency, p.status,
   p.paymentMethod, p.paymentTime, p.createdAt)

/-- All persisted fields of a booking row except `updatedAt`. -/
def bookingCore (b : Booking) :
    String × String × Nat × String × String × Option String × Option String ×
    Nat :=
  (b.id, b.userId, b.date, b.status, b.paymentStatus, b.paymentId,
   b.meetLink, b.createdAt)

/-! Concrete fixtures used by counterexamples and witnesses. -/

/-- A payment row as the creation flow writes it: status PENDING. -/
def pPending : Payment :=
  { id := "p1", orderId := "o1", paymentSessionId := "sess1", amount := 500,
    currency := "INR", status := "PENDING", paymentMethod := none,
    paymentTime := none, createdAt := 0, updatedAt := 0 }

/-- A payment row whose status has reached the terminal value PAID. -/
def pPaid : Payment := { pPending with status := "PAID" }

/-- A first-schema booking row as the creation flow writes it. -/
def bPending : Booking :=
  { id := "b1", userId := "u1", date := 100, status := "pending",
    paymentStatus := "pending", paymentId := some "o1", meetLink := none,
    createdAt := 0, updatedAt := 0 }

/-- A first-schema booking row that was cancelled. -/
def bCancelled : Booking := { bPending with status := "cancelled" }

/-- A second-schema booking row in its initial state. -/
def bcPending : BookingC :=
  { id := "b1", userId := "u1", orderId := "o1",
    consultationDate := "2025-01-01", name := "N", email := "e@x",
    phoneNumber := "0", amount := 500, isGuest := false,
    status := "Pending", createdAt := 0, updatedAt := 0 }

/-- A gateway verifyOrder response reporting PAID. -/
def respPaid : PaymentResponse :=
  { order_id := "o1", payment_session_id := "sess1", order_status := "PAID",
    payment_method := some "upi", payment_time := some 1 }

/-- A gateway verifyOrder response reporting FAILED. -/
def respFailed : PaymentResponse :=
  { order_id := "o1", payment_session_id := "sess1",
    order_status := "FAILED", payment_method := none, payment_time := none }

/-- A gateway verifyOrder response reporting CANCELLED. -/
def respCancelled : PaymentResponse :=
  { respFailed with order_status := "CANCELLED" }

/-- A gateway verifyOrder response with a status outside the recognized
vocabulary. -/
def respWeird : PaymentResponse :=
  { respFailed with order_status := "SOMETHING_ELSE" }

/-- A database state reached by the code's own creation flow: one pending
payment and one pending booking for order o1, created at instant 0. -/
def st0 : VerifyState :=
  (createBooking ⟨[], []⟩ "u1" 100 "b1" "o1" "p1" (Except.ok "sess1") 0).1

/-! Helper lemmas about the row updaters. -/

lemma verifyRow_orderId (oid : String) (d : PaymentResponse) (n : Nat)
    (p : Payment) : (verifyRow oid d n p).orderId = p.orderId := by
  unfold verifyRow; split <;> rfl

lemma verifyRow_verifyRow (oid : String) (d : PaymentResponse) (t1 t2 : Nat)
    (p : Payment) :
    verifyRow oid d t2 (verifyRow oid d t1 p) = verifyRow oid d t2 p := by
  by_cases h : (p.orderId == oid) = true <;> simp [verifyRow, h]

lemma verifyRow_core (oid : String) (d : PaymentResponse) (t1 t2 : Nat)
    (p : Payment) :
    paymentCore (verifyRow oid d t2 p) = paymentCore (verifyRow oid d t1 p) := by
  by_cases h : (p.orderId == oid) = true <;> simp [verifyRow, paymentCore, h]

lemma confirmRow_paymentId (oid : String) (n : Nat) (b : Booking) :
    (confirmRow oid n b).paymentId = b.paymentId := by
  unfold confirmRow; split <;> rfl

lemma confirmRow_confirmRow (oid : String) (t1 t2 : Nat) (b : Booking) :
    confirmRow oid t2 (confirmRow oid t1 b) = confirmRow oid t2 b := by
  by_cases h : (b.paymentId == some oid) = true <;> simp [confirmRow, h]

lemma confirmRow_core (oid : String) (t1 t2 : Nat) (b : Booking) :
    bookingCore (confirmRow oid t2 b) = bookingCore (confirmRow oid t1 b) := by
  by_cases h : (b.paymentId == some oid) = true <;>
    simp [confirmRow, bookingCore, h]

lemma findPayment_update (ps : List Payment) (oid : String)
    (d : PaymentResponse) (n : Nat) :
    findPayment (updatePaymentsVerify ps oid d n) oid =
      (findPayment ps oid).map (verifyRow oid d n) := by
  unfold findPayment updatePaymentsVerify
  rw [List.find?_map]
  have hpred : ((fun p : Payment => p.orderId == oid) ∘ verifyRow oid d n) =
      (fun p : Payment => p.orderId == oid) := by
    funext p
    simp [Function.comp, verifyRow_orderId]
  rw [hpred]

lemma updatePaymentsVerify_twice (ps : List Payment) (oid : String)
    (d : PaymentResponse) (t1 t2 : Nat) :
    updatePaymentsVerify (updatePaymentsVerify ps oid d t1) oid d t2 =
      updatePaymentsVerify ps oid d t2 := by
  unfold updatePaymentsVerify
  rw [List.map_map]
  exact List.map_congr_left (fun p _ => verifyRow_verifyRow oid d t1 t2 p)

lemma updatePaymentsVerify_core (ps : List Payment) (oid : String)
    (d : PaymentResponse) (t1 t2 : Nat) :
    (updatePaymentsVerify ps oid d t2).map paymentCore =
      (updatePaymentsVerify ps oid d t1).map paymentCore := by
  unfold updatePaymentsVerify
  rw [List.map_map, List.map_map]
  exact List.map_congr_left (fun p _ => verifyRow_core oid d t1 t2 p)

lemma confirmBookings_twice (bs : List Booking) (oid : String) (t1 t2 : Nat) :
    confirmBookings (confirmBookings bs oid t1) oid t2 =
      confirmBookings bs oid t2 := by
  unfold confirmBookings
  rw [List.map_map]
  exact List.map_congr_left (fun b _ => confirmRow_confirmRow oid t1 t2 b)

lemma confirmBookings_core (bs : List Booking) (oid : String) (t1 t2 : Nat) :
    (confirmBookings bs oid t2).map bookingCore =
      (confirmBookings bs oid t1).map bookingCore := by
  unfold confirmBookings
  rw [List.map_map, List.map_map]
  exact List.map_congr_left (fun b _ => confirmRow_core oid t1 t2 b)

lemma verifyPayment_bookings_nonpaid (st : VerifyState) (oid : String)
    (d : PaymentResponse) (t : Nat) (h : d.order_status ≠ "PAID") :
    (verifyPayment st oid d t).1.bookings = st.bookings := by
  have hb : (d.order_status == "PAID") = false := by
    simpa using h
  cases hf : findPayment st.payments oid <;> simp [verifyPayment, hf, hb]

lemma getPaymentStatus_bookings_nonpaid (cst : CState) (oid : String)
    (d : PaymentResponse) (t : Nat) (h : d.order_status ≠ "PAID") :
    (getPaymentStatus cst oid d t).1.bookings = cst.bookings := by
  have hb : (d.order_status == "PAID") = false := by
    simpa using h
  cases hf : findPayment cst.payments oid <;>
    simp [getPaymentStatus, hf, hb]

/-- C1, counterexample: the current gatewayStatus of order o1 is the
terminal value PAID, a verify event reports the different value FAILED, yet
the call succeeds (no Conflict) and overwrites the payment row with FAILED,
so a terminal status IS overwritten by a different value. -/
theorem c1_counterexample :
    ((verifyPayment ⟨[pPaid], [bPending]⟩ "o1" respFailed 5).1.payments.map
        Payment.status = ["FAILED"]) ∧
    (verifyPayment ⟨[pPaid], [bPending]⟩ "o1" respFailed 5).2 =
      Except.ok { status := "FAILED", order_id := "o1", method := none,
                  time := none, amount := 500, currency := "INR" } := by
  decide

/-- C1, amended: the code has no terminal-state guard at all — whenever a
payment row exists for the orderId, a status event succeeds and overwrites
the stored gatewayStatus with the reported value, whatever the current value
(terminal or not) and whatever the reported value; no Conflict path exists. -/
theorem c1_amended (st : VerifyState) (oid : String) (d : PaymentResponse)
    (t : Nat) (p : Payment) (hp : findPayment st.payments oid = some p) :
    (verifyPayment st oid d t).2 =
      Except.ok { status := d.order_status, order_id := d.order_id,
                  method := d.payment_method, time := d.payment_time,
                  amount := p.amount, currency := p.currency } ∧
    ∀ q ∈ (verifyPayment st oid d t).1.payments,
      q.orderId = oid → q.status = d.order_status := by
  constructor
  · simp [verifyPayment, hp]
  · intro q hq hqid
    simp only [verifyPayment, hp] at hq
    simp only [updatePaymentsVerify, List.mem_map] at hq
    obtain ⟨r, hr, rfl⟩ := hq
    by_cases hbe : (r.orderId == oid) = true
    · simp [verifyRow, hbe]
    · have h0 : verifyRow oid d t r = r := by simp [verifyRow, hbe]
      rw [h0] at hqid
      exact absurd hqid (by simpa using hbe)

/-- C1, witness: an order that already reached the terminal status PAID
receives a FAILED event; the amended theorem applies, and the replay
overwrites the terminal status. -/
theorem c1_witness :
    (verifyPayment ⟨[pPaid], [bPending]⟩ "o1" respFailed 5).2 =
      Except.ok { status := "FAILED", order_id := "o1", method := none,
                  time := none, amount := 500, currency := "INR" } ∧
    ∀ q ∈ (verifyPayment ⟨[pPaid], [bPending]⟩ "o1" respFailed 5).1.payments,
      q.orderId = "o1" → q.status = "FAILED" :=
  c1_amended ⟨[pPaid], [bPending]⟩ "o1" respFailed 5 pPaid (by decide)

/-- C2, counterexample: applying the identical PAID event at instant 1 and
replaying it at instant 2 does perform a write — the payment row's updatedAt
advances from 1 to 2, so the replay changes a persisted field. -/
theorem c2_counterexample :
    ((verifyPayment (verifyPayment st0 "o1" respPaid 1).1 "o1" respPaid
        2).1.payments.map Payment.updatedAt = [2]) ∧
    ((verifyPayment st0 "o1" respPaid 1).1.payments.map Payment.updatedAt =
      [1]) := by
  decide

/-- C2, amended: replaying the same status event is idempotent only up to
write timestamps — a replay at the same instant leaves the state exactly
unchanged, and a replay at any other instant changes nothing outside the
updatedAt columns (every other persisted field of every payment and booking
row is unchanged); the replay does, however, perform the writes. -/
theorem c2_amended (st : VerifyState) (oid : String) (d : PaymentResponse)
    (t1 t2 : Nat) :
    (verifyPayment (verifyPayment st oid d t1).1 oid d t1).1 =
      (verifyPayment st oid d t1).1 ∧
    (verifyPayment (verifyPayment st oid d t1).1 oid d t2).1.payments.map
        paymentCore =
      (verifyPayment st oid d t1).1.payments.map paymentCore ∧
    (verifyPayment (verifyPayment st oid d t1).1 oid d t2).1.bookings.map
        bookingCore =
      (verifyPayment st oid d t1).1.bookings.map bookingCore := by
  cases h : findPayment st.payments oid with
  | none =>
    simp [verifyPayment, h]
  | some p =>
    have hf2 : ∀ u : Nat,
        findPayment (updatePaymentsVerify st.payments oid d u) oid =
          some (verifyRow oid d u p) := by
      intro u
      rw [findPayment_update, h]
      rfl
    by_cases hp : (d.order_status == "PAID") = true
    · have hs1 : (verifyPayment st oid d t1).1 =
          ⟨updatePaymentsVerify st.payments oid d t1,
           confirmBookings st.bookings oid t1⟩ := by
        simp [verifyPayment, h, hp]
      have hs2 : ∀ u : Nat,
          (verifyPayment (verifyPayment st oid d t1).1 oid d u).1 =
            ⟨updatePaymentsVerify st.payments oid d u,
             confirmBookings st.bookings oid u⟩ := by
        intro u
        rw [hs1]
        simp [verifyPayment, hf2 t1, hp, updatePaymentsVerify_twice,
              confirmBookings_twice]
      refine ⟨?_, ?_, ?_⟩
      · rw [hs2 t1, hs1]
      · rw [hs2 t2, hs1]
        exact updatePaymentsVerify_core st.payments oid d t1 t2
      · rw [hs2 t2, hs1]
        exact confirmBookings_core st.bookings oid t1 t2
    · rw [Bool.not_eq_true] at hp
      have hs1 : (verifyPayment st oid d t1).1 =
          ⟨updatePaymentsVerify st.payments oid d t1, st.bookings⟩ := by
        simp [verifyPayment, h, hp]
      have hs2 : ∀ u : Nat,
          (verifyPayment (verifyPayment st oid d t1).1 oid d u).1 =
            ⟨updatePaymentsVerify st.payments oid d u, st.bookings⟩ := by
        intro u
        rw [hs1]
        simp [verifyPayment, hf2 t1, hp, updatePaymentsVerify_twice]
      refine ⟨?_, ?_, ?_⟩
      · rw [hs2 t1, hs1]
      · rw [hs2 t2, hs1]
        exact updatePaymentsVerify_core st.payments oid d t1 t2
      · rw [hs2 t2, hs1]

/-- C3, counterexample: starting from a state the creation flow itself
produced, the event sequence PAID then FAILED leaves the booking confirmed
while the payment order's gatewayStatus is FAILED — a reachable state in
which Booking.status == confirmed does not imply gatewayStatus == PAID. -/
theorem c3_counterexample :
    ((applyVerifyEvents "o1" st0 [(respPaid, 1), (respFailed, 2)]).bookings.map
        Booking.status = ["confirmed"]) ∧
    ((applyVerifyEvents "o1" st0 [(respPaid, 1), (respFailed, 2)]).payments.map
        Payment.status = ["FAILED"]) := by
  decide

/-- C3, amended: only one direction survives, and only in a weakened form —
a booking can become confirmed only through an event that reported PAID: if
no booking was confirmed before a sequence of status events and one is
confirmed after it, some event of the sequence reported PAID.  The coupling
with the CURRENT gatewayStatus fails in both directions, since a later
FAILED event overwrites the order while the booking stays confirmed. -/
theorem c3_amended (st : VerifyState) (oid : String)
    (evs : List (PaymentResponse × Nat))
    (h : ∀ b ∈ st.bookings, b.status ≠ "confirmed")
    (h2 : ∃ b ∈ (applyVerifyEvents oid st evs).bookings,
      b.status = "confirmed") :
    ∃ e ∈ evs, e.1.order_status = "PAID" := by
  induction evs generalizing st with
  | nil =>
    obtain ⟨b, hb, hbs⟩ := h2
    exact absurd hbs (h b hb)
  | cons e rest ih =>
    by_cases hp : e.1.order_status = "PAID"
    · exact ⟨e, List.mem_cons_self e rest, hp⟩
    · have hkeep := verifyPayment_bookings_nonpaid st oid e.1 e.2 hp
      have h' : ∀ b ∈ (verifyPayment st oid e.1 e.2).1.bookings,
          b.status ≠ "confirmed" := by
        rw [hkeep]; exact h
      have h2' : ∃ b ∈ (applyVerifyEvents oid
          (verifyPayment st oid e.1 e.2).1 rest).bookings,
          b.status = "confirmed" := h2
      obtain ⟨e', he', hp'⟩ := ih (verifyPayment st oid e.1 e.2).1 h' h2'
      exact ⟨e', List.mem_cons_of_mem e he', hp'⟩

/-- C3, witness: from a state with no confirmed booking, the singleton
sequence consisting of one PAID event confirms the booking, and the amended
theorem exhibits the PAID event. -/
theorem c3_witness :
    ∃ e ∈ [(respPaid, (1 : Nat))], e.1.order_status = "PAID" :=
  c3_amended ⟨[pPending], [bPending]⟩ "o1" [(respPaid, 1)] (by decide)
    (by decide)

/-- C4, counterexample: a webhook event with NO signature header at all (so
signature evidence is missing and cannot verify) is not rejected: the
handler skips verification entirely, mutates the payment record and returns
success — the claim requires Unauthorized and no mutation. -/
theorem c4_counterexample :
    ((postWebhook ⟨[pPending], [bcPending]⟩ none false
        ⟨some ("o1", "PAID"), none⟩ 3).1.payments.map Payment.status =
      ["PAID"]) ∧
    (postWebhook ⟨[pPending], [bcPending]⟩ none false
        ⟨some ("o1", "PAID"), none⟩ 3).2 =
      Except.ok { ack := some ("o1", "PAID") } := by
  decide

/-- C4, amended: signature verification runs only when the
x-webhook-signature header is present; in that case a non-verifying
signature fails with 401 Unauthorized and neither record is mutated.  A
request without the header bypasses verification entirely. -/
theorem c4_amended (st : CState) (s : String) (body : WebhookBody)
    (now : Nat) :
    postWebhook st (some s) false body now = (st, Except.error 401) := by
  simp [postWebhook]

/-- C5, counterexample: a webhook PAID event writes the booking row with
status 'Confirmed' — not the 'confirmed' value of the booking status enum —
and writes no paymentStatus at all (the schema this handler updates has no
such column), so the claimed two-field write does not happen on the webhook
path. -/
theorem c5_counterexample :
    (postWebhook ⟨[pPending], [bcPending]⟩ none true
        ⟨some ("o1", "PAID"), none⟩ 3).1.bookings =
      [{ bcPending with status := "Confirmed", updatedAt := 3 }] ∧
    ("Confirmed" : String) ≠ "confirmed" := by
  decide

/-- C5, amended: on the client-verify path a PAID transition writes both
Booking.status = 'confirmed' and Booking.paymentStatus = 'completed' on
every booking referencing the order; on the webhook path only the status
column is written, with the value 'Confirmed', and no paymentStatus is
touched (the schema in use there has none). -/
theorem c5_amended (st : VerifyState) (cst : CState) (oid : String)
    (d : PaymentResponse) (pm : Option String) (t u : Nat) (p q : Payment)
    (hd : d.order_status = "PAID")
    (hp : findPayment st.payments oid = some p)
    (hq : findPayment cst.payments oid = some q) :
    (∀ b ∈ (verifyPayment st oid d t).1.bookings,
      b.paymentId = some oid →
        b.status = "confirmed" ∧ b.paymentStatus = "completed") ∧
    (∀ b ∈ (postWebhook cst none true ⟨some (oid, "PAID"), pm⟩ u).1.bookings,
      b.orderId = oid → b.status = "Confirmed") := by
  constructor
  · intro b hb hbid
    simp only [verifyPayment, hp, hd] at hb
    simp only [beq_self_eq_true, if_true, confirmBookings,
               List.mem_map] at hb
    obtain ⟨r, hr, rfl⟩ := hb
    by_cases hbe : (r.paymentId == some oid) = true
    · simp [confirmRow, hbe]
    · have h0 : confirmRow oid t r = r := by simp [confirmRow, hbe]
      rw [h0] at hbid
      exact absurd hbid (by simpa using hbe)
  · intro b hb hbid
    simp only [postWebhook, hq] at hb
    simp only [Option.isSome_none, Bool.false_and, Bool.false_eq_true,
               if_false, beq_self_eq_true, if_true, confirmBookingsC,
               List.mem_map] at hb
    obtain ⟨r, hr, rfl⟩ := hb
    by_cases hbe : (r.orderId == oid) = true
    · simp [confirmRowC, hbe]
    · have h0 : confirmRowC oid u r = r := by simp [confirmRowC, hbe]
      rw [h0] at hbid
      exact absurd hbid (by simpa using hbe)

/-- C5, witness: a PAID verify event confirms the first-schema booking with
both fields, and a PAID webhook event writes 'Confirmed' on the
second-schema booking. -/
theorem c5_witness :
    (∀ b ∈ (verifyPayment ⟨[pPending], [bPending]⟩ "o1" respPaid
        3).1.bookings,
      b.paymentId = some "o1" →
        b.status = "confirmed" ∧ b.paymentStatus = "completed") ∧
    (∀ b ∈ (postWebhook ⟨[pPending], [bcPending]⟩ none true
        ⟨some ("o1", "PAID"), none⟩ 3).1.bookings,
      b.orderId = "o1" → b.status = "Confirmed") :=
  c5_amended ⟨[pPending], [bPending]⟩ ⟨[pPending], [bcPending]⟩ "o1"
    respPaid none 3 3 pPending pPending rfl (by decide) (by decide)

/-- C6, counterexample: a FAILED event leaves the booking's paymentStatus at
'pending' (the claim requires it to become 'failed'), and a CANCELLED event
leaves the booking's status at 'pending' (the claim requires 'cancelled') —
non-PAID events never touch the booking at all. -/
theorem c6_counterexample :
    ((verifyPayment ⟨[pPending], [bPending]⟩ "o1" respFailed
        4).1.bookings.map Booking.paymentStatus = ["pending"]) ∧
    ((verifyPayment ⟨[pPending], [bPending]⟩ "o1" respCancelled
        4).1.bookings.map Booking.status = ["pending"]) := by
  decide

/-- C6, amended: for every status event whose reported status is not PAID —
FAILED, CANCELLED, USER_DROPPED and EXPIRED included — the booking table is
left completely unchanged on both the client-verify path and the
payment-status path: no paymentStatus write to 'failed', no cancellation. -/
theorem c6_amended (st : VerifyState) (cst : CState) (oid : String)
    (d : PaymentResponse) (t : Nat) (h : d.order_status ≠ "PAID") :
    (verifyPayment st oid d t).1.bookings = st.bookings ∧
    (getPaymentStatus cst oid d t).1.bookings = cst.bookings :=
  ⟨verifyPayment_bookings_nonpaid st oid d t h,
   getPaymentStatus_bookings_nonpaid cst oid d t h⟩

/-- C6, witness: a FAILED event leaves both bookings tables unchanged. -/
theorem c6_witness :
    (verifyPayment ⟨[pPending], [bPending]⟩ "o1" respFailed 4).1.bookings =
      [bPending] ∧
    (getPaymentStatus ⟨[pPending], [bcPending]⟩ "o1" respFailed
        4).1.bookings = [bcPending] :=
  c6_amended ⟨[pPending], [bPending]⟩ ⟨[pPending], [bcPending]⟩ "o1"
    respFailed 4 (by decide)

/-- C7, counterexample: creating a booking on an empty database with a
failing gateway leaves BOTH freshly inserted records in place (one booking
and one payment) while surfacing a 500 error — nothing is rolled back or
deleted, so a Booking does persist without a valid Payment Order attempt. -/
theorem c7_counterexample :
    ((createBooking ⟨[], []⟩ "u1" 100 "b1" "o1" "p1" (Except.error 502)
        0).2 = Except.error 500) ∧
    ((createBooking ⟨[], []⟩ "u1" 100 "b1" "o1" "p1" (Except.error 502)
        0).1.bookings.length = 1) ∧
    ((createBooking ⟨[], []⟩ "u1" 100 "b1" "o1" "p1" (Except.error 502)
        0).1.payments.length = 1) := by
  decide

/-- C7, amended: when the gateway order creation fails, the failure is
surfaced to the caller as HTTP 500, but nothing is rolled back: the Booking
row (status pending) and the Payment row (status PENDING, empty session id)
inserted before the gateway call both persist. -/
theorem c7_amended (st : VerifyState) (uid : String) (date : Nat)
    (bid oid pid : String) (e now : Nat)
    (h : st.bookings.find? (fun b => b.userId == uid && b.date == date) =
      none) :
    createBooking st uid date bid oid pid (Except.error e) now =
      (⟨st.payments ++
          [{ id := pid, orderId := oid, paymentSessionId := "",
             amount := 500, currency := "INR", status := "PENDING",
             paymentMethod := none, paymentTime := none, createdAt := now,
             updatedAt := now }],
        st.bookings ++
          [{ id := bid, userId := uid, date := date, status := "pending",
             paymentStatus := "pending", paymentId := some oid,
             meetLink := none, createdAt := now, updatedAt := now }]⟩,
       Except.error 500) := by
  simp [createBooking, h]

/-- C7, witness: the amended theorem applied to the empty database and a
gateway failure. -/
theorem c7_witness :
    createBooking ⟨[], []⟩ "u1" 100 "b1" "o1" "p1" (Except.error 502) 7 =
      (⟨[{ id := "p1", orderId := "o1", paymentSessionId := "",
           amount := 500, currency := "INR", status := "PENDING",
           paymentMethod := none, paymentTime := none, createdAt := 7,
           updatedAt := 7 }],
        [{ id := "b1", userId := "u1", date := 100, status := "pending",
           paymentStatus := "pending", paymentId := some "o1",
           meetLink := none, createdAt := 7, updatedAt := 7 }]⟩,
       Except.error 500) :=
  c7_amended ⟨[], []⟩ "u1" 100 "b1" "o1" "p1" 502 7 rfl

/-- C8, counterexample: a CANCELLED booking occupying the same userId and
slot blocks the new creation: the request fails (HTTP 400) and writes
nothing — the claim requires creation to succeed when only cancelled
bookings occupy the slot. -/
theorem c8_counterexample :
    createBooking ⟨[], [bCancelled]⟩ "u1" 100 "b2" "o2" "p2"
        (Except.ok "s") 5 =
      (⟨[], [bCancelled]⟩, Except.error 400) := by
  decide

/-- C8, amended: the duplicate check ignores booking status entirely: if ANY
existing booking — cancelled included — has the same userId and date, the
request fails with HTTP 400 (not a Conflict/409) and writes no record; when
no booking at all exists for that userId and date and the gateway order
creation succeeds, the creation succeeds and appends the new booking. -/
theorem c8_amended (st : VerifyState) (uid : String) (date : Nat)
    (bid oid pid sess : String) (now : Nat) :
    ((∃ b ∈ st.bookings, b.userId = uid ∧ b.date = date) →
      createBooking st uid date bid oid pid (Except.ok sess) now =
        (st, Except.error 400)) ∧
    (st.bookings.find? (fun b => b.userId == uid && b.date == date) =
        none →
      (createBooking st uid date bid oid pid (Except.ok sess) now).2 =
        Except.ok
          { booking :=
              { id := bid, userId := uid, date := date, status := "pending",
                paymentStatus := "pending", paymentId := some oid,
                meetLink := none, createdAt := now, updatedAt := now },
            orderId := oid, amount := 500, currency := "INR",
            paymentSessionId := sess } ∧
      (createBooking st uid date bid oid pid (Except.ok sess)
          now).1.bookings =
        st.bookings ++
          [{ id := bid, userId := uid, date := date, status := "pending",
             paymentStatus := "pending", paymentId := some oid,
             meetLink := none, createdAt := now, updatedAt := now }]) := by
  constructor
  · rintro ⟨b, hb, hu, hd⟩
    cases hf : st.bookings.find?
        (fun b => b.userId == uid && b.date == date) with
    | none =>
      exfalso
      have := List.find?_eq_none.mp hf b hb
      simp [hu, hd] at this
    | some b' =>
      simp [createBooking, hf]
  · intro hf
    constructor
    · simp [createBooking, hf]
    · simp [createBooking, hf]

/-- C8, witness: a cancelled booking at the same slot makes the creation
fail with 400 and no write; on an empty table the creation succeeds. -/
theorem c8_witness :
    createBooking ⟨[], [bCancelled]⟩ "u1" 100 "b2" "o2" "p2"
        (Except.ok "s") 5 =
      (⟨[], [bCancelled]⟩, Except.error 400) ∧
    (createBooking ⟨[], []⟩ "u1" 100 "b2" "o2" "p2" (Except.ok "s")
        5).2 =
      Except.ok
        { booking :=
            { id := "b2", userId := "u1", date := 100, status := "pending",
              paymentStatus := "pending", paymentId := some "o2",
              meetLink := none, createdAt := 5, updatedAt := 5 },
          orderId := "o2", amount := 500, currency := "INR",
          paymentSessionId := "s" } :=
  ⟨(c8_amended ⟨[], [bCancelled]⟩ "u1" 100 "b2" "o2" "p2" "s" 5).1
      ⟨bCancelled, by decide, rfl, rfl⟩,
   (((c8_amended ⟨[], []⟩ "u1" 100 "b2" "o2" "p2" "s" 5).2) rfl).1⟩

/-- C9, counterexample: a status event reporting the unrecognized value
'SOMETHING_ELSE' does map to UNKNOWN, but the event is NOT a no-op: the
payment row's status is overwritten with the raw unrecognized value and its
updatedAt advances. -/
theorem c9_counterexample :
    statusMap "SOMETHING_ELSE" = "UNKNOWN" ∧
    ((getPaymentStatus ⟨[pPending], [bcPending]⟩ "o1" respWeird
        7).1.payments.map Payment.status = ["SOMETHING_ELSE"]) ∧
    ((getPaymentStatus ⟨[pPending], [bcPending]⟩ "o1" respWeird
        7).1.payments.map Payment.updatedAt = [7]) := by
  decide

/-- C9, amended: normalization of an unrecognized reported status yields
UNKNOWN only in the response payload; the handler still overwrites the
payment row with the RAW reported value (status, paymentMethod, paymentTime
and updatedAt are all written).  Only the booking table is left unchanged,
because the PAID branch is not taken. -/
theorem c9_amended (cst : CState) (oid : String) (d : PaymentResponse)
    (t : Nat) (q : Payment)
    (h1 : d.order_status ≠ "PAID") (h2 : d.order_status ≠ "FAILED")
    (h3 : d.order_status ≠ "CANCELLED") (h4 : d.order_status ≠ "PENDING")
    (h5 : d.order_status ≠ "USER_DROPPED")
    (h6 : d.order_status ≠ "EXPIRED")
    (hq : findPayment cst.payments oid = some q) :
    statusMap d.order_status = "UNKNOWN" ∧
    (getPaymentStatus cst oid d t).2 =
      Except.ok { order_id := oid, status := "UNKNOWN",
                  method := d.payment_method, time := d.payment_time,
                  amount := q.amount, currency := q.currency } ∧
    (getPaymentStatus cst oid d t).1.payments =
      updatePaymentsVerify cst.payments oid d t ∧
    (getPaymentStatus cst oid d t).1.bookings = cst.bookings := by
  have e1 : (d.order_status == "PAID") = false := by simpa using h1
  have e2 : (d.order_status == "FAILED") = false := by simpa using h2
  have e3 : (d.order_status == "CANCELLED") = false := by simpa using h3
  have e4 : (d.order_status == "PENDING") = false := by simpa using h4
  have e5 : (d.order_status == "USER_DROPPED") = false := by simpa using h5
  have e6 : (d.order_status == "EXPIRED") = false := by simpa using h6
  refine ⟨?_, ?_, ?_, ?_⟩ <;>
    simp [statusMap, getPaymentStatus, hq, e1, e2, e3, e4, e5, e6]

/-- C9, witness: the amended theorem at the unrecognized reported value
'SOMETHING_ELSE'. -/
theorem c9_witness :
    statusMap "SOMETHING_ELSE" = "UNKNOWN" ∧
    (getPaymentStatus ⟨[pPending], [bcPending]⟩ "o1" respWeird 7).2 =
      Except.ok { order_id := "o1", status := "UNKNOWN", method := none,
                  time := none, amount := 500, currency := "INR" } ∧
    (getPaymentStatus ⟨[pPending], [bcPending]⟩ "o1" respWeird
        7).1.payments = updatePaymentsVerify [pPending] "o1" respWeird 7 ∧
    (getPaymentStatus ⟨[pPending], [bcPending]⟩ "o1" respWeird
        7).1.bookings = [bcPending] :=
  c9_amended ⟨[pPending], [bcPending]⟩ "o1" respWeird 7 pPending
    (by decide) (by decide) (by decide) (by decide) (by decide) (by decide)
    (by decide)

/-- C10, counterexample: a webhook request whose body has no
data.order.order_id but whose present signature header fails verification is
answered with 401, not with a success acknowledgement (the no-mutation half
of the claim does hold on every path). -/
theorem c10_counterexample :
    postWebhook ⟨[pPending], [bcPending]⟩ (some "bad") false ⟨none, none⟩
        3 =
      (⟨[pPending], [bcPending]⟩, Except.error 401) := by
  decide

/-- C10, amended: a webhook body without data.order.order_id never mutates
any record; it is acknowledged with bare success whenever the signature gate
passes (header absent, or verification succeeding), while a present,
non-verifying header yields 401 instead — still without mutation. -/
theorem c10_amended (st : CState) (sig : Option String) (sv : Bool)
    (pm : Option String) (now : Nat) (h : sig = none ∨ sv = true) :
    postWebhook st sig sv ⟨none, pm⟩ now =
      (st, Except.ok { ack := none }) ∧
    ∀ (s2 : Option String) (v2 : Bool),
      (postWebhook st s2 v2 ⟨none, pm⟩ now).1 = st := by
  constructor
  · rcases h with rfl | rfl <;> simp [postWebhook]
  · intro s2 v2
    cases s2 <;> cases v2 <;> simp [postWebhook]

/-- C10, witness: the amended theorem at a signature-less request on a
concrete state. -/
theorem c10_witness :
    postWebhook ⟨[pPending], [bcPending]⟩ none false ⟨none, none⟩ 3 =
      (⟨[pPending], [bcPending]⟩, Except.ok { ack := none }) ∧
    ∀ (s2 : Option String) (v2 : Bool),
      (postWebhook ⟨[pPending], [bcPending]⟩ s2 v2 ⟨none, none⟩ 3).1 =
        ⟨[pPending], [bcPending]⟩ :=
  c10_amended ⟨[pPending], [bcPending]⟩ none false none 3 (Or.inl rfl)

end CBS
